import Mathlib

/-!
Verification of the SLO verifier (`src/scripts/verify-slo.py`).

The script queries a metrics backend and runs three checks — availability,
p95 latency, error rate — each producing a result record, then aggregates
the three results into a report and exits 0/1 on overall compliance.

We embed the script shallowly: a backend response is
`Except String (List Datapoint)` (an exception, or the list of datapoints
the call returned); metric values are rationals; each Python function
becomes a Lean function of the backend responses it consumes.
-/

namespace SLOVerify

/-- The four result statuses used by the script. -/
inductive Status where
  | SUCCESS
  | VIOLATION
  | ERROR
  | NO_DATA
deriving DecidableEq

/-- One CloudWatch datapoint: its `Timestamp` and the requested statistic
(`Average`, `p95` or `Sum` depending on the query). -/
structure Datapoint where
  timestamp : Int
  value : ℚ
deriving DecidableEq

/-- `self.slo_thresholds['availability']` (99.95%). -/
def availabilityThreshold : ℚ := 99.95

/-- `self.slo_thresholds['latency_p95']` (500 ms). -/
def latencyThreshold : ℚ := 500

/-- `self.slo_thresholds['error_rate']` (0.1%). -/
def errorRateThreshold : ℚ := 0.1

/-- The result dictionary returned by each `verify_*_slo` method
(the human-readable `message` field is not modelled). -/
structure SLOCheckResult where
  metric : String
  status : Status
  value : Option ℚ
  threshold : ℚ
  compliant : Bool
deriving DecidableEq

/-- `max(datapoints, key=lambda x: x['Timestamp'])` on a non-empty list:
Python's `max` scans left to right and replaces the current maximum only on
a strictly greater key, so the first maximal element wins. -/
def latestDatapoint (d : Datapoint) (ds : List Datapoint) : Datapoint :=
  ds.foldl (fun acc x => if acc.timestamp < x.timestamp then x else acc) d

/-- `SLOVerifier.verify_availability_slo`: on exception → ERROR; on empty
datapoints → NO_DATA; otherwise compare the latest datapoint's `Average`
against the threshold with `>=`. -/
def verify_availability_slo (backend : Except String (List Datapoint)) :
    SLOCheckResult :=
  match backend with
  | .error _ =>
      { metric := "availability", status := .ERROR, value := none,
        threshold := availabilityThreshold, compliant := false }
  | .ok [] =>
      { metric := "availability", status := .NO_DATA, value := none,
        threshold := availabilityThreshold, compliant := false }
  | .ok (d :: ds) =>
      let availability := (latestDatapoint d ds).value
      let compliant : Bool := decide (availabilityThreshold ≤ availability)
      { metric := "availability",
        status := if compliant then .SUCCESS else .VIOLATION,
        value := some availability,
        threshold := availabilityThreshold,
        compliant := compliant }

/-- `SLOVerifier.verify_latency_slo`: like availability, but the latest
datapoint's `p95` statistic is converted seconds → milliseconds
(`* 1000`) and compared with `<=`. -/
def verify_latency_slo (backend : Except String (List Datapoint)) :
    SLOCheckResult :=
  match backend with
  | .error _ =>
      { metric := "latency", status := .ERROR, value := none,
        threshold := latencyThreshold, compliant := false }
  | .ok [] =>
      { metric := "latency", status := .NO_DATA, value := none,
        threshold := latencyThreshold, compliant := false }
  | .ok (d :: ds) =>
      let latency_ms := (latestDatapoint d ds).value * 1000
      let compliant : Bool := decide (latency_ms ≤ latencyThreshold)
      { metric := "latency",
        status := if compliant then .SUCCESS else .VIOLATION,
        value := some latency_ms,
        threshold := latencyThreshold,
        compliant := compliant }

/-- `sum([dp['Sum'] for dp in response['Datapoints']])`. -/
def sumValues (ds : List Datapoint) : ℚ := (ds.map Datapoint.value).sum

/-- `SLOVerifier.verify_error_rate_slo`: three backend calls (2xx, 4xx, 5xx
`Sum` series); an exception in any of them is caught by the single
`try/except` → ERROR. Otherwise each series is summed over the window;
a zero total → NO_DATA, else `error_rate = (errors / total) * 100`
compared with `<=`. -/
def verify_error_rate_slo
    (b2xx b4xx b5xx : Except String (List Datapoint)) : SLOCheckResult :=
  match b2xx, b4xx, b5xx with
  | .ok s, .ok e4, .ok e5 =>
      let success_count := sumValues s
      let error4xx_count := sumValues e4
      let error5xx_count := sumValues e5
      let total_requests := success_count + error4xx_count + error5xx_count
      let error_requests := error4xx_count + error5xx_count
      if total_requests = 0 then
        { metric := "error_rate", status := .NO_DATA, value := none,
          threshold := errorRateThreshold, compliant := false }
      else
        let error_rate := (error_requests / total_requests) * 100
        let compliant : Bool := decide (error_rate ≤ errorRateThreshold)
        { metric := "error_rate",
          status := if compliant then .SUCCESS else .VIOLATION,
          value := some error_rate,
          threshold := errorRateThreshold,
          compliant := compliant }
  | _, _, _ =>
      { metric := "error_rate", status := .ERROR, value := none,
        threshold := errorRateThreshold, compliant := false }

/-- The backend responses one invocation of the script consumes: one call
for availability, one for latency, three for the error rate. -/
structure Backend where
  availability : Except String (List Datapoint)
  latency : Except String (List Datapoint)
  http2xx : Except String (List Datapoint)
  http4xx : Except String (List Datapoint)
  http5xx : Except String (List Datapoint)

/-- The `results` dictionary built by `verify_all_slos`
(`environment`/`timestamp` and printing are not modelled). -/
structure SLOReport where
  slos : List SLOCheckResult
  overall_compliant : Bool
  violations : List String
deriving DecidableEq

/-- One iteration of the `for slo_result in slo_checks` loop: append the
result, clear `overall_compliant` when it is non-compliant, and record the
metric name when, in addition, its status is `VIOLATION`. -/
def reportStep (r : SLOReport) (res : SLOCheckResult) : SLOReport :=
  { slos := r.slos ++ [res],
    overall_compliant := if res.compliant then r.overall_compliant else false,
    violations :=
      if res.compliant = false ∧ res.status = Status.VIOLATION then
        r.violations ++ [res.metric]
      else r.violations }

/-- `SLOVerifier.verify_all_slos`: run the three checks in order and fold
the loop body over their results, starting from
`overall_compliant = True`, empty `slos` and `violations`. -/
def verify_all_slos (b : Backend) : SLOReport :=
  let slo_checks :=
    [verify_availability_slo b.availability,
     verify_latency_slo b.latency,
     verify_error_rate_slo b.http2xx b.http4xx b.http5xx]
  slo_checks.foldl reportStep
    { slos := [], overall_compliant := true, violations := [] }

/-- `main`: `sys.exit(1)` when the report is not overall-compliant,
`sys.exit(0)` otherwise. -/
def mainExitCode (b : Backend) : Nat :=
  if (verify_all_slos b).overall_compliant then 0 else 1

/-! ### Helper lemmas -/

lemma avail_metric (b : Except String (List Datapoint)) :
    (verify_availability_slo b).metric = "availability" := by
  rcases b with e | l
  · rfl
  · rcases l with _ | ⟨d, ds⟩ <;> rfl

lemma lat_metric (b : Except String (List Datapoint)) :
    (verify_latency_slo b).metric = "latency" := by
  rcases b with e | l
  · rfl
  · rcases l with _ | ⟨d, ds⟩ <;> rfl

lemma err_metric (b2 b4 b5 : Except String (List Datapoint)) :
    (verify_error_rate_slo b2 b4 b5).metric = "error_rate" := by
  rcases b2 with e | s
  · rfl
  · rcases b4 with e | e4
    · rfl
    · rcases b5 with e | e5
      · rfl
      · simp only [verify_error_rate_slo]
        split <;> rfl

lemma avail_compliant_iff (b : Except String (List Datapoint)) :
    (verify_availability_slo b).compliant = true ↔
      (verify_availability_slo b).status = Status.SUCCESS := by
  rcases b with e | l
  · simp [verify_availability_slo]
  · rcases l with _ | ⟨d, ds⟩
    · simp [verify_availability_slo]
    · simp only [verify_availability_slo]
      by_cases h : availabilityThreshold ≤ (latestDatapoint d ds).value <;>
        simp [h]

lemma lat_compliant_iff (b : Except String (List Datapoint)) :
    (verify_latency_slo b).compliant = true ↔
      (verify_latency_slo b).status = Status.SUCCESS := by
  rcases b with e | l
  · simp [verify_latency_slo]
  · rcases l with _ | ⟨d, ds⟩
    · simp [verify_latency_slo]
    · simp only [verify_latency_slo]
      by_cases h : (latestDatapoint d ds).value * 1000 ≤ latencyThreshold <;>
        simp [h]

lemma err_compliant_iff (b2 b4 b5 : Except String (List Datapoint)) :
    (verify_error_rate_slo b2 b4 b5).compliant = true ↔
      (verify_error_rate_slo b2 b4 b5).status = Status.SUCCESS := by
  rcases b2 with e | s
  · simp [verify_error_rate_slo]
  · rcases b4 with e | e4
    · simp [verify_error_rate_slo]
    · rcases b5 with e | e5
      · simp [verify_error_rate_slo]
      · simp only [verify_error_rate_slo]
        by_cases h0 : sumValues s + sumValues e4 + sumValues e5 = 0
        · simp [h0]
        · by_cases h :
            (sumValues e4 + sumValues e5) /
                (sumValues s + sumValues e4 + sumValues e5) * 100 ≤
              errorRateThreshold <;>
            simp [h0, h]

lemma violation_not_compliant (r : SLOCheckResult)
    (h : r.compliant = true ↔ r.status = Status.SUCCESS)
    (hv : r.status = Status.VIOLATION) : r.compliant = false := by
  cases hc : r.compliant
  · rfl
  · rw [h.mp hc] at hv
    exact Status.noConfusion hv

lemma reportStep_overall (r : SLOReport) (res : SLOCheckResult) :
    (reportStep r res).overall_compliant =
      (r.overall_compliant && res.compliant) := by
  simp only [reportStep]
  cases res.compliant <;> simp

lemma reportStep_violations (r : SLOReport) (res : SLOCheckResult)
    (h : res.status = Status.VIOLATION → res.compliant = false) :
    (reportStep r res).violations =
      if res.status = Status.VIOLATION then r.violations ++ [res.metric]
      else r.violations := by
  simp only [reportStep]
  by_cases hv : res.status = Status.VIOLATION
  · simp [hv, h hv]
  · simp [hv]

lemma verify_all_slos_eq (b : Backend) :
    verify_all_slos b =
      reportStep
        (reportStep
          (reportStep { slos := [], overall_compliant := true, violations := [] }
            (verify_availability_slo b.availability))
          (verify_latency_slo b.latency))
        (verify_error_rate_slo b.http2xx b.http4xx b.http5xx) := rfl

lemma verify_all_slos_slos (b : Backend) :
    (verify_all_slos b).slos =
      [verify_availability_slo b.availability,
       verify_latency_slo b.latency,
       verify_error_rate_slo b.http2xx b.http4xx b.http5xx] := rfl

lemma verify_all_slos_overall (b : Backend) :
    (verify_all_slos b).overall_compliant =
      ((verify_availability_slo b.availability).compliant &&
       (verify_latency_slo b.latency).compliant &&
       (verify_error_rate_slo b.http2xx b.http4xx b.http5xx).compliant) := by
  rw [verify_all_slos_eq, reportStep_overall, reportStep_overall,
    reportStep_overall]
  simp

lemma verify_all_slos_violations (b : Backend) :
    (verify_all_slos b).violations =
      ((if (verify_availability_slo b.availability).status = Status.VIOLATION
          then ["availability"] else []) ++
       (if (verify_latency_slo b.latency).status = Status.VIOLATION
          then ["latency"] else []) ++
       (if (verify_error_rate_slo b.http2xx b.http4xx b.http5xx).status =
            Status.VIOLATION
          then ["error_rate"] else [])) := by
  rw [verify_all_slos_eq,
    reportStep_violations _ _
      (violation_not_compliant _ (err_compliant_iff _ _ _)),
    reportStep_violations _ _
      (violation_not_compliant _ (lat_compliant_iff _)),
    reportStep_violations _ _
      (violation_not_compliant _ (avail_compliant_iff _))]
  rw [avail_metric, lat_metric, err_metric]
  by_cases h1 : (verify_availability_slo b.availability).status =
      Status.VIOLATION <;>
    by_cases h2 : (verify_latency_slo b.latency).status = Status.VIOLATION <;>
    by_cases h3 : (verify_error_rate_slo b.http2xx b.http4xx b.http5xx).status =
        Status.VIOLATION <;>
    simp [h1, h2, h3]

lemma latestDatapoint_cons (d y : Datapoint) (ys : List Datapoint) :
    latestDatapoint d (y :: ys) =
      latestDatapoint (if d.timestamp < y.timestamp then y else d) ys := rfl

lemma latestDatapoint_mem (d : Datapoint) (ds : List Datapoint) :
    latestDatapoint d ds ∈ d :: ds := by
  induction ds generalizing d with
  | nil => simp [latestDatapoint]
  | cons y ys ih =>
    rw [latestDatapoint_cons]
    rcases List.mem_cons.mp (ih (if d.timestamp < y.timestamp then y else d))
      with h1 | h1
    · rw [h1]
      split
      · simp
      · simp
    · simp [h1]

lemma latestDatapoint_le (d : Datapoint) (ds : List Datapoint) :
    ∀ x ∈ d :: ds, x.timestamp ≤ (latestDatapoint d ds).timestamp := by
  induction ds generalizing d with
  | nil =>
    intro x hx
    simp only [List.mem_singleton] at hx
    rw [hx]
    exact le_refl _
  | cons y ys ih =>
    intro x hx
    rw [latestDatapoint_cons]
    have hd : d.timestamp ≤
        (if d.timestamp < y.timestamp then y else d).timestamp := by
      split
      · next h => exact le_of_lt h
      · exact le_refl _
    have hy : y.timestamp ≤
        (if d.timestamp < y.timestamp then y else d).timestamp := by
      split
      · exact le_refl _
      · next h => exact le_of_not_lt h
    rcases List.mem_cons.mp hx with rfl | hx1
    · exact le_trans hd (ih _ _ (List.mem_cons_self _ _))
    · rcases List.mem_cons.mp hx1 with rfl | hx2
      · exact le_trans hy (ih _ _ (List.mem_cons_self _ _))
      · exact ih _ x (List.mem_cons_of_mem _ hx2)

lemma latestDatapoint_head (d : Datapoint) (ds : List Datapoint)
    (h : ∀ x ∈ ds, x.timestamp ≤ d.timestamp) : latestDatapoint d ds = d := by
  induction ds generalizing d with
  | nil => rfl
  | cons y ys ih =>
    have hy : y.timestamp ≤ d.timestamp := h y (List.mem_cons_self _ _)
    rw [latestDatapoint_cons, if_neg (not_lt.mpr hy)]
    exact ih d (fun x hx => h x (List.mem_cons_of_mem _ hx))

lemma latestDatapoint_append (d : Datapoint) (l1 l2 : List Datapoint) :
    latestDatapoint d (l1 ++ l2) = latestDatapoint (latestDatapoint d l1) l2 := by
  simp [latestDatapoint, List.foldl_append]

lemma latestDatapoint_first_max (pre : List Datapoint) (x : Datapoint)
    (post : List Datapoint) (hpre : ∀ y ∈ pre, y.timestamp < x.timestamp)
    (hpost : ∀ y ∈ post, y.timestamp ≤ x.timestamp) :
    ∀ d ds, pre ++ x :: post = d :: ds → latestDatapoint d ds = x := by
  intro d ds hd
  cases pre with
  | nil =>
    simp only [List.nil_append] at hd
    injection hd with h1 h2
    subst h1
    subst h2
    exact latestDatapoint_head x post hpost
  | cons p ps =>
    simp only [List.cons_append] at hd
    injection hd with h1 h2
    subst h1
    subst h2
    have e1 : ps ++ x :: post = (ps ++ [x]) ++ post := by simp
    rw [e1, latestDatapoint_append, latestDatapoint_append]
    have ha : (latestDatapoint p ps).timestamp < x.timestamp :=
      hpre _ (latestDatapoint_mem p ps)
    have e2 : latestDatapoint (latestDatapoint p ps) [x] = x := by
      rw [show latestDatapoint (latestDatapoint p ps) [x] =
          if (latestDatapoint p ps).timestamp < x.timestamp then x
          else latestDatapoint p ps from rfl, if_pos ha]
    rw [e2]
    exact latestDatapoint_head x post hpost

/-! ### Claim theorems -/

/-- C1: for every result returned by any of the three check operations,
under any backend response or exception, `compliant` is true if and only if
`status` is `SUCCESS` (hence `compliant` is false whenever `status` is
`NO_DATA`, `ERROR` or `VIOLATION`). -/
theorem C1_compliant_iff_success :
    (∀ b, ((verify_availability_slo b).compliant = true ↔
      (verify_availability_slo b).status = Status.SUCCESS)) ∧
    (∀ b, ((verify_latency_slo b).compliant = true ↔
      (verify_latency_slo b).status = Status.SUCCESS)) ∧
    (∀ b2 b4 b5, ((verify_error_rate_slo b2 b4 b5).compliant = true ↔
      (verify_error_rate_slo b2 b4 b5).status = Status.SUCCESS)) :=
  ⟨avail_compliant_iff, lat_compliant_iff, err_compliant_iff⟩

/-- C2: for every backend, the report of `verify_all_slos` has
`overall_compliant` equal to the AND of the three results' `compliant`
flags, and `violations` contains a metric's name iff that metric's status
is exactly `VIOLATION`. -/
theorem C2_report_aggregation :
    ∀ b : Backend,
      (verify_all_slos b).overall_compliant =
        ((verify_availability_slo b.availability).compliant &&
         (verify_latency_slo b.latency).compliant &&
         (verify_error_rate_slo b.http2xx b.http4xx b.http5xx).compliant) ∧
      (∀ m : String,
        m ∈ (verify_all_slos b).violations ↔
          ((m = (verify_availability_slo b.availability).metric ∧
              (verify_availability_slo b.availability).status =
                Status.VIOLATION) ∨
           (m = (verify_latency_slo b.latency).metric ∧
              (verify_latency_slo b.latency).status = Status.VIOLATION) ∨
           (m = (verify_error_rate_slo b.http2xx b.http4xx b.http5xx).metric ∧
              (verify_error_rate_slo b.http2xx b.http4xx b.http5xx).status =
                Status.VIOLATION))) := by
  intro b
  refine ⟨verify_all_slos_overall b, fun m => ?_⟩
  rw [verify_all_slos_violations, avail_metric, lat_metric, err_metric]
  by_cases h1 : (verify_availability_slo b.availability).status =
      Status.VIOLATION <;>
    by_cases h2 : (verify_latency_slo b.latency).status = Status.VIOLATION <;>
    by_cases h3 : (verify_error_rate_slo b.http2xx b.http4xx b.http5xx).status =
        Status.VIOLATION <;>
    simp [h1, h2, h3]

/-- C5: for every backend, the process exit code is 0 iff the report's
`overall_compliant` is true, 1 iff it is false, and no other exit code is
produced. -/
theorem C5_exit_code :
    ∀ b : Backend,
      (mainExitCode b = 0 ↔ (verify_all_slos b).overall_compliant = true) ∧
      (mainExitCode b = 1 ↔ (verify_all_slos b).overall_compliant = false) ∧
      (mainExitCode b = 0 ∨ mainExitCode b = 1) := by
  intro b
  simp only [mainExitCode]
  cases h : (verify_all_slos b).overall_compliant <;> simp

/-- C8: for every metric check, a backend response with zero datapoints
yields status `NO_DATA`, `compliant = false` and an absent observed
value. -/
theorem C8_empty_no_data :
    ((verify_availability_slo (Except.ok [])).status = Status.NO_DATA ∧
     (verify_availability_slo (Except.ok [])).compliant = false ∧
     (verify_availability_slo (Except.ok [])).value = none) ∧
    ((verify_latency_slo (Except.ok [])).status = Status.NO_DATA ∧
     (verify_latency_slo (Except.ok [])).compliant = false ∧
     (verify_latency_slo (Except.ok [])).value = none) ∧
    ((verify_error_rate_slo (Except.ok []) (Except.ok [])
        (Except.ok [])).status = Status.NO_DATA ∧
     (verify_error_rate_slo (Except.ok []) (Except.ok [])
        (Except.ok [])).compliant = false ∧
     (verify_error_rate_slo (Except.ok []) (Except.ok [])
        (Except.ok [])).value = none) := by
  refine ⟨⟨rfl, rfl, rfl⟩, ⟨rfl, rfl, rfl⟩, ?_⟩
  simp [verify_error_rate_slo, sumValues]

/-- C6: for the availability and latency checks, a non-empty datapoint set
yields the value of the datapoint with the latest timestamp (which is a
member of the set and has maximal timestamp); concretely, availability
datapoints `[{1, 98.0}, {2, 99.99}]` give observed 99.99 and SUCCESS. -/
theorem C6_latest_wins :
    (∀ d ds,
      (verify_availability_slo (Except.ok (d :: ds))).value =
        some (latestDatapoint d ds).value ∧
      (verify_latency_slo (Except.ok (d :: ds))).value =
        some ((latestDatapoint d ds).value * 1000) ∧
      latestDatapoint d ds ∈ d :: ds ∧
      (∀ x ∈ d :: ds, x.timestamp ≤ (latestDatapoint d ds).timestamp)) ∧
    ((verify_availability_slo
        (Except.ok [⟨1, 98⟩, ⟨2, 99.99⟩])).value = some 99.99 ∧
     (verify_availability_slo
        (Except.ok [⟨1, 98⟩, ⟨2, 99.99⟩])).status = Status.SUCCESS) := by
  constructor
  · intro d ds
    exact ⟨rfl, rfl, latestDatapoint_mem d ds, latestDatapoint_le d ds⟩
  · constructor
    · norm_num [verify_availability_slo, latestDatapoint]
    · norm_num [verify_availability_slo, latestDatapoint,
        availabilityThreshold]

/-- C6 witness: the general statement applied to the concrete two-point
list, the membership hypothesis discharged at its head. -/
theorem C6_latest_wins_witness :
    (⟨1, 98⟩ : Datapoint).timestamp ≤
      (latestDatapoint ⟨1, 98⟩ [⟨2, 99.99⟩]).timestamp :=
  (C6_latest_wins.1 ⟨1, 98⟩ [⟨2, 99.99⟩]).2.2.2 ⟨1, 98⟩
    (List.mem_cons_self _ _)

/-- C7: the latency check multiplies the latest datapoint's p95 statistic
by 1000 and compares with `≤ 500`; a single datapoint with p95 = 0.6 s
yields 600 ms and VIOLATION. -/
theorem C7_latency_conversion :
    (∀ d ds,
      (verify_latency_slo (Except.ok (d :: ds))).value =
        some ((latestDatapoint d ds).value * 1000) ∧
      ((verify_latency_slo (Except.ok (d :: ds))).status = Status.SUCCESS ↔
        (latestDatapoint d ds).value * 1000 ≤ latencyThreshold) ∧
      ((verify_latency_slo (Except.ok (d :: ds))).status = Status.VIOLATION ↔
        ¬ (latestDatapoint d ds).value * 1000 ≤ latencyThreshold)) ∧
    ((verify_latency_slo (Except.ok [⟨0, 0.6⟩])).value = some 600 ∧
     (verify_latency_slo (Except.ok [⟨0, 0.6⟩])).status = Status.VIOLATION) := by
  constructor
  · intro d ds
    refine ⟨rfl, ?_, ?_⟩ <;>
      · simp only [verify_latency_slo]
        by_cases h : (latestDatapoint d ds).value * 1000 ≤ latencyThreshold <;>
          simp [h]
  · constructor
    · norm_num [verify_latency_slo, latestDatapoint]
    · norm_num [verify_latency_slo, latestDatapoint, latencyThreshold]

/-- C9: when datapoints tie on the maximal timestamp the first one in the
backend's list wins (Python `max` keeps the first maximal element), so the
observed value depends on the order of the response list: for any list
`pre ++ x :: post` whose elements before `x` have strictly smaller
timestamps and whose elements after `x` have timestamps no larger — that
is, `x` is the earliest occurrence of the maximal timestamp — `x` is the
datapoint selected by the availability and latency checks. -/
theorem C9_tie_break_first :
    (∀ (pre : List Datapoint) (x : Datapoint) (post : List Datapoint),
      (∀ y ∈ pre, y.timestamp < x.timestamp) →
      (∀ y ∈ post, y.timestamp ≤ x.timestamp) →
      (verify_availability_slo (Except.ok (pre ++ x :: post))).value =
        some x.value ∧
      (verify_latency_slo (Except.ok (pre ++ x :: post))).value =
        some (x.value * 1000)) ∧
    ((verify_availability_slo
        (Except.ok [⟨1, 0⟩, ⟨5, 10⟩, ⟨5, 20⟩])).value = some 10 ∧
     (verify_availability_slo
        (Except.ok [⟨1, 0⟩, ⟨5, 20⟩, ⟨5, 10⟩])).value = some 20 ∧
     (verify_availability_slo (Except.ok [⟨5, 10⟩, ⟨5, 20⟩])).value =
        some 10 ∧
     (verify_availability_slo (Except.ok [⟨5, 20⟩, ⟨5, 10⟩])).value =
        some 20 ∧
     (verify_latency_slo (Except.ok [⟨5, 1⟩, ⟨5, 2⟩])).value = some 1000 ∧
     (verify_latency_slo (Except.ok [⟨5, 2⟩, ⟨5, 1⟩])).value = some 2000) := by
  constructor
  · intro pre x post h1 h2
    cases e : pre ++ x :: post with
    | nil =>
      exfalso
      cases pre <;> simp at e
    | cons d ds =>
      have hx := latestDatapoint_first_max pre x post h1 h2 d ds e
      constructor
      · rw [show (verify_availability_slo (Except.ok (d :: ds))).value =
            some (latestDatapoint d ds).value from rfl, hx]
      · rw [show (verify_latency_slo (Except.ok (d :: ds))).value =
            some ((latestDatapoint d ds).value * 1000) from rfl, hx]
  · refine ⟨?_, ?_, ?_, ?_, ?_, ?_⟩ <;>
      norm_num [verify_availability_slo, verify_latency_slo, latestDatapoint]

/-- C9 witness: the tie-break statement applied to a concrete list whose
two tied maximal datapoints follow a non-maximal head. -/
theorem C9_tie_break_first_witness :
    (verify_availability_slo
        (Except.ok ([⟨1, 0⟩] ++ (⟨5, 10⟩ : Datapoint) :: [⟨5, 20⟩]))).value =
      some 10 ∧
    (verify_latency_slo
        (Except.ok ([⟨1, 0⟩] ++ (⟨5, 10⟩ : Datapoint) :: [⟨5, 20⟩]))).value =
      some (10 * 1000) :=
  C9_tie_break_first.1 [⟨1, 0⟩] ⟨5, 10⟩ [⟨5, 20⟩] (by decide) (by decide)

/-- C3: the error-rate check sums each series over the whole window; a zero
total yields NO_DATA (the division branch is not taken), otherwise the
observed value is `100 * (4xx + 5xx) / total`; for sums 2xx=970, 4xx=20,
5xx=10 the observed value is 3 and the status is VIOLATION. -/
theorem C3_error_rate_formula :
    (∀ s e4 e5 : List Datapoint,
      (sumValues s + sumValues e4 + sumValues e5 = 0 →
        (verify_error_rate_slo (Except.ok s) (Except.ok e4)
          (Except.ok e5)).status = Status.NO_DATA) ∧
      (sumValues s + sumValues e4 + sumValues e5 ≠ 0 →
        (verify_error_rate_slo (Except.ok s) (Except.ok e4)
            (Except.ok e5)).value =
          some (100 * (sumValues e4 + sumValues e5) /
            (sumValues s + sumValues e4 + sumValues e5)))) ∧
    ((verify_error_rate_slo (Except.ok [⟨0, 970⟩]) (Except.ok [⟨0, 20⟩])
        (Except.ok [⟨0, 10⟩])).value = some 3 ∧
     (verify_error_rate_slo (Except.ok [⟨0, 970⟩]) (Except.ok [⟨0, 20⟩])
        (Except.ok [⟨0, 10⟩])).status = Status.VIOLATION) := by
  constructor
  · intro s e4 e5
    constructor
    · intro h0
      simp [verify_error_rate_slo, h0]
    · intro h0
      simp only [verify_error_rate_slo, if_neg h0]
      rw [Option.some_inj]
      ring
  · constructor
    · norm_num [verify_error_rate_slo, sumValues]
    · norm_num [verify_error_rate_slo, sumValues, errorRateThreshold]

/-- C3 witness: both implications applied at concrete inputs — empty
series give NO_DATA, the 970/20/10 series give the formula value. -/
theorem C3_error_rate_formula_witness :
    (verify_error_rate_slo (Except.ok ([] : List Datapoint)) (Except.ok [])
        (Except.ok [])).status = Status.NO_DATA ∧
    (verify_error_rate_slo (Except.ok [⟨0, 970⟩]) (Except.ok [⟨0, 20⟩])
        (Except.ok [⟨0, 10⟩])).value =
      some (100 * (sumValues [⟨0, 20⟩] + sumValues [⟨0, 10⟩]) /
        (sumValues [⟨0, 970⟩] + sumValues [⟨0, 20⟩] + sumValues [⟨0, 10⟩])) :=
  ⟨(C3_error_rate_formula.1 [] [] []).1 (by norm_num [sumValues]),
   (C3_error_rate_formula.1 [⟨0, 970⟩] [⟨0, 20⟩] [⟨0, 10⟩]).2
     (by norm_num [sumValues])⟩

/-- C4: a backend exception in any call makes only that check return
status ERROR with `compliant = false`; the report still holds three
results, and each slot of the report depends only on its own check's
backend responses, so a failing check leaves the others unaffected. -/
theorem C4_error_isolation :
    (∀ e, (verify_availability_slo (Except.error e)).status = Status.ERROR ∧
      (verify_availability_slo (Except.error e)).compliant = false) ∧
    (∀ e, (verify_latency_slo (Except.error e)).status = Status.ERROR ∧
      (verify_latency_slo (Except.error e)).compliant = false) ∧
    (∀ e b4 b5,
      (verify_error_rate_slo (Except.error e) b4 b5).status = Status.ERROR ∧
      (verify_error_rate_slo (Except.error e) b4 b5).compliant = false) ∧
    (∀ b2 e b5,
      (verify_error_rate_slo b2 (Except.error e) b5).status = Status.ERROR ∧
      (verify_error_rate_slo b2 (Except.error e) b5).compliant = false) ∧
    (∀ b2 b4 e,
      (verify_error_rate_slo b2 b4 (Except.error e)).status = Status.ERROR ∧
      (verify_error_rate_slo b2 b4 (Except.error e)).compliant = false) ∧
    (∀ b : Backend, (verify_all_slos b).slos.length = 3) ∧
    (∀ b c : Backend, b.availability = c.availability →
      (verify_all_slos b).slos[0]? = (verify_all_slos c).slos[0]?) ∧
    (∀ b c : Backend, b.latency = c.latency →
      (verify_all_slos b).slos[1]? = (verify_all_slos c).slos[1]?) ∧
    (∀ b c : Backend, b.http2xx = c.http2xx → b.http4xx = c.http4xx →
      b.http5xx = c.http5xx →
      (verify_all_slos b).slos[2]? = (verify_all_slos c).slos[2]?) := by
  refine ⟨fun e => ⟨rfl, rfl⟩, fun e => ⟨rfl, rfl⟩, ?_, ?_, ?_, ?_, ?_, ?_, ?_⟩
  · intro e b4 b5
    exact ⟨rfl, rfl⟩
  · intro b2 e b5
    rcases b2 with e2 | s <;> exact ⟨rfl, rfl⟩
  · intro b2 b4 e
    rcases b2 with e2 | s <;> rcases b4 with e4 | l4 <;> exact ⟨rfl, rfl⟩
  · intro b
    rw [verify_all_slos_slos]
    rfl
  · intro b c h
    rw [verify_all_slos_slos, verify_all_slos_slos]
    simp [h]
  · intro b c h
    rw [verify_all_slos_slos, verify_all_slos_slos]
    simp [h]
  · intro b c h2 h4 h5
    rw [verify_all_slos_slos, verify_all_slos_slos]
    simp [h2, h4, h5]

/-- C4 witness: availability failing with an exception while the latency
slot of the report is unchanged between the failing and a healthy
backend. -/
theorem C4_error_isolation_witness :
    (verify_availability_slo (Except.error "boom")).status = Status.ERROR ∧
    (verify_all_slos
        ⟨Except.error "boom", Except.ok [], Except.ok [], Except.ok [],
          Except.ok []⟩).slos[1]? =
      (verify_all_slos
        ⟨Except.ok [], Except.ok [], Except.ok [], Except.ok [],
          Except.ok []⟩).slos[1]? :=
  ⟨(C4_error_isolation.1 "boom").1,
   C4_error_isolation.2.2.2.2.2.2.2.1
     ⟨Except.error "boom", Except.ok [], Except.ok [], Except.ok [],
       Except.ok []⟩
     ⟨Except.ok [], Except.ok [], Except.ok [], Except.ok [], Except.ok []⟩
     rfl⟩

lemma sumValues_nonneg (l : List Datapoint) (h : ∀ x ∈ l, 0 ≤ x.value) :
    0 ≤ sumValues l := by
  apply List.sum_nonneg
  intro q hq
  rcases List.mem_map.mp hq with ⟨x, hx, rfl⟩
  exact h x hx

/-- C10: when every Sum datapoint is non-negative and the error-rate check
returns an observed value, that value lies between 0 and 100 inclusive. -/
theorem C10_error_rate_bounds :
    ∀ (s e4 e5 : List Datapoint) (v : ℚ),
      (∀ x ∈ s, 0 ≤ x.value) → (∀ x ∈ e4, 0 ≤ x.value) →
      (∀ x ∈ e5, 0 ≤ x.value) →
      (verify_error_rate_slo (Except.ok s) (Except.ok e4)
          (Except.ok e5)).value = some v →
      0 ≤ v ∧ v ≤ 100 := by
  intro s e4 e5 v hs h4 h5 hv
  have hs0 := sumValues_nonneg s hs
  have h40 := sumValues_nonneg e4 h4
  have h50 := sumValues_nonneg e5 h5
  by_cases h0 : sumValues s + sumValues e4 + sumValues e5 = 0
  · simp [verify_error_rate_slo, h0] at hv
  · simp only [verify_error_rate_slo, if_neg h0, Option.some_inj] at hv
    have htot : 0 < sumValues s + sumValues e4 + sumValues e5 :=
      lt_of_le_of_ne (by linarith) (Ne.symm h0)
    have hone : (sumValues e4 + sumValues e5) /
        (sumValues s + sumValues e4 + sumValues e5) ≤ 1 :=
      (div_le_one htot).mpr (by linarith)
    have hnn : 0 ≤ (sumValues e4 + sumValues e5) /
        (sumValues s + sumValues e4 + sumValues e5) :=
      div_nonneg (by linarith) htot.le
    constructor
    · rw [← hv]
      exact mul_nonneg hnn (by norm_num)
    · rw [← hv]
      nlinarith [hone, hnn]

/-- C10 witness: the bound applied to the 970/20/10 series, whose observed
error rate is 3. -/
theorem C10_error_rate_bounds_witness : (0 : ℚ) ≤ 3 ∧ (3 : ℚ) ≤ 100 :=
  C10_error_rate_bounds [⟨0, 970⟩] [⟨0, 20⟩] [⟨0, 10⟩] 3
    (by intro x hx; simp only [List.mem_singleton] at hx; subst hx; norm_num)
    (by intro x hx; simp only [List.mem_singleton] at hx; subst hx; norm_num)
    (by intro x hx; simp only [List.mem_singleton] at hx; subst hx; norm_num)
    (by norm_num [verify_error_rate_slo, sumValues])

end SLOVerify
